import Mathlib

/-!
Verification of codejail/safe_exec.py (safe execution of untrusted Python code).

The development shallowly embeds the Python 2 source.  Python runtime values
are modelled by the inductive type `PyValue`; the Python standard library
calls that the source makes (json.dumps, json.loads, str, type, pickle.dumps)
are modelled as executable Lean functions over `PyValue`, documented at each
definition.  Strings are modelled as Lean strings (lengths are counted in
characters; the source code only manipulates ASCII framing text).  Namespaces
(Python dicts keyed by variable names) are modelled as association lists with
pairwise-distinct keys.
-/

/-- Model of a Python runtime value, as discriminated by the source.

Constructors cover the shapes that safe_exec.py treats specially:
`none`, `bool`, `int` (Python int and long), `str` (Python str and unicode;
the flag marks a string holding unicode unpaired surrogates, the case the
comment in json_safe at lines 231-236 is about: the JSON encoder emits text
for it that the JSON decoder then fails to parse), `list`, `tuple`, `dict`
(entries keyed by names; non-string dict keys are outside the model), and
`obj`, an arbitrary object of some user class: `strRes` is what the str()
builtin returns on it (`Option.none` when str() raises), `typeRes` is what
str(type(v)) returns (`Option.none` when that raises), and `pick` says
whether pickle.dumps succeeds on it.  Python floats are outside the value
model (no claim depends on float formatting). -/
inductive PyValue where
  | none : PyValue
  | bool : Bool → PyValue
  | int : Int → PyValue
  | str : String → Bool → PyValue
  | list : List PyValue → PyValue
  | tuple : List PyValue → PyValue
  | dict : List (String × PyValue) → PyValue
  | obj : Option String → Option String → Bool → PyValue

/-- The single quote character (ASCII 39). -/
def squote : String := String.singleton (Char.ofNat 39)

/-- Opening curly brace as text (ASCII 123). -/
def obrace : String := String.singleton (Char.ofNat 123)

/-- Closing curly brace as text (ASCII 125). -/
def cbrace : String := String.singleton (Char.ofNat 125)

/-- Hexadecimal digit character for n < 16, lowercase as CPython emits. -/
def hexDigit (n : Nat) : Char :=
  if n < 10 then Char.ofNat (48 + n) else Char.ofNat (87 + n)

/-- A \uXXXX JSON escape for a code point (basic multilingual plane). -/
def uEscape (n : Nat) : String :=
  "\\u" ++ String.mk [hexDigit (n / 4096 % 16), hexDigit (n / 256 % 16),
                      hexDigit (n / 16 % 16), hexDigit (n % 16)]

/-- How the Python 2 json encoder (ensure_ascii default) renders one character
inside a string literal. -/
def jsonEscapeChar (c : Char) : String :=
  if c = Char.ofNat 34 then "\\" ++ String.singleton (Char.ofNat 34)
  else if c = Char.ofNat 92 then "\\\\"
  else if c = Char.ofNat 10 then "\\n"
  else if c = Char.ofNat 9 then "\\t"
  else if c = Char.ofNat 13 then "\\r"
  else if c = Char.ofNat 8 then "\\b"
  else if c = Char.ofNat 12 then "\\f"
  else if c.toNat < 32 || c.toNat > 126 then uEscape c.toNat
  else String.singleton c

/-- A JSON string literal: quotes around the escaped characters. -/
def jsonQuote (s : String) : String :=
  String.singleton (Char.ofNat 34)
    ++ String.join (s.data.map jsonEscapeChar)
    ++ String.singleton (Char.ofNat 34)

mutual

/-- Models json.dumps of the Python 2 standard library on a `PyValue`:
`Option.none` models the TypeError raised on a value that is not
JSON-serializable (an `obj` anywhere inside), `some s` the produced text.
Default separators (comma-space, colon-space) as the source uses.  Note the
encoder succeeds on a string with unpaired surrogates (it is the decoder
that then fails). -/
def json_dumps : PyValue → Option String
  | PyValue.none => some "null"
  | PyValue.bool b => some (if b then "true" else "false")
  | PyValue.int n => some (toString n)
  | PyValue.str s _ => some (jsonQuote s)
  | PyValue.list xs =>
      (json_dumps_list xs).map (fun ps => "[" ++ String.intercalate ", " ps ++ "]")
  | PyValue.tuple xs =>
      (json_dumps_list xs).map (fun ps => "[" ++ String.intercalate ", " ps ++ "]")
  | PyValue.dict es =>
      (json_dumps_entries es).map
        (fun ps => obrace ++ String.intercalate ", " ps ++ cbrace)
  | PyValue.obj _ _ _ => Option.none

/-- json.dumps on the elements of a list or tuple. -/
def json_dumps_list : List PyValue → Option (List String)
  | [] => some []
  | x :: xs =>
      match json_dumps x, json_dumps_list xs with
      | some s, some ss => some (s :: ss)
      | _, _ => Option.none

/-- json.dumps on the entries of a dict (string keys). -/
def json_dumps_entries : List (String × PyValue) → Option (List String)
  | [] => some []
  | (k, v) :: es =>
      match json_dumps v, json_dumps_entries es with
      | some s, some ss => some ((jsonQuote k ++ ": " ++ s) :: ss)
      | _, _ => Option.none

end

mutual

/-- Whether a value contains, anywhere inside, a string with unpaired
surrogates.  On exactly these values json.loads raises a ValueError when fed
the output of json.dumps (the behavior documented at lines 231-236 of the
source), while on all other json.dumps output it succeeds. -/
def hasBadStr : PyValue → Bool
  | PyValue.none => false
  | PyValue.bool _ => false
  | PyValue.int _ => false
  | PyValue.str _ bad => bad
  | PyValue.list xs => hasBadStr_list xs
  | PyValue.tuple xs => hasBadStr_list xs
  | PyValue.dict es => hasBadStr_entries es
  | PyValue.obj _ _ _ => false

/-- hasBadStr over the elements of a list or tuple. -/
def hasBadStr_list : List PyValue → Bool
  | [] => false
  | x :: xs => hasBadStr x || hasBadStr_list xs

/-- hasBadStr over the entry values of a dict. -/
def hasBadStr_entries : List (String × PyValue) → Bool
  | [] => false
  | (_, v) :: es => hasBadStr v || hasBadStr_entries es

end

mutual

/-- The value json.loads returns when fed json.dumps of the given value
(assuming both succeed): JSON has no tuples, so Python tuples come back as
lists; every other modelled shape is preserved.  (The decoder returns
unicode strings; the str/unicode distinction is not modelled.) -/
def jsonCanon : PyValue → PyValue
  | PyValue.none => PyValue.none
  | PyValue.bool b => PyValue.bool b
  | PyValue.int n => PyValue.int n
  | PyValue.str s bad => PyValue.str s bad
  | PyValue.list xs => PyValue.list (jsonCanon_list xs)
  | PyValue.tuple xs => PyValue.list (jsonCanon_list xs)
  | PyValue.dict es => PyValue.dict (jsonCanon_entries es)
  | PyValue.obj s t p => PyValue.obj s t p

/-- jsonCanon over the elements of a list or tuple. -/
def jsonCanon_list : List PyValue → List PyValue
  | [] => []
  | x :: xs => jsonCanon x :: jsonCanon_list xs

/-- jsonCanon over the entries of a dict. -/
def jsonCanon_entries : List (String × PyValue) → List (String × PyValue)
  | [] => []
  | (k, v) :: es => (k, jsonCanon v) :: jsonCanon_entries es

end

/-- Models the Python expression json.loads(json.dumps(v)), the round trip
that json_safe (source lines 237-240) evaluates for its exceptions only:
`Option.none` models an exception escaping the composition - a TypeError
from the encoder (value not JSON-serializable) or a ValueError from the
decoder (unpaired surrogates, see lines 231-236); `some w` models a normal
return with value `w`. -/
def json_roundtrip (v : PyValue) : Option PyValue :=
  if (json_dumps v).isSome && !(hasBadStr v) then some (jsonCanon v) else Option.none

mutual

/-- Models the Python 2 repr() builtin on modelled values: `Option.none`
when repr raises.  For an `obj` the model reuses its str() rendering (a
distinct repr is not modelled; no claim depends on it). -/
def repr_py : PyValue → Option String
  | PyValue.none => some "None"
  | PyValue.bool b => some (if b then "True" else "False")
  | PyValue.int n => some (toString n)
  | PyValue.str s _ => some (squote ++ s ++ squote)
  | PyValue.list xs =>
      (repr_py_list xs).map (fun ps => "[" ++ String.intercalate ", " ps ++ "]")
  | PyValue.tuple xs =>
      (repr_py_list xs).map (fun ps =>
        match ps with
        | [p] => "(" ++ p ++ ",)"
        | _ => "(" ++ String.intercalate ", " ps ++ ")")
  | PyValue.dict es =>
      (repr_py_entries es).map
        (fun ps => obrace ++ String.intercalate ", " ps ++ cbrace)
  | PyValue.obj s _ _ => s

/-- repr_py over the elements of a list or tuple. -/
def repr_py_list : List PyValue → Option (List String)
  | [] => some []
  | x :: xs =>
      match repr_py x, repr_py_list xs with
      | some s, some ss => some (s :: ss)
      | _, _ => Option.none

/-- repr_py over the entries of a dict. -/
def repr_py_entries : List (String × PyValue) → Option (List String)
  | [] => some []
  | (k, v) :: es =>
      match repr_py v, repr_py_entries es with
      | some s, some ss => some ((squote ++ k ++ squote ++ ": " ++ s) :: ss)
      | _, _ => Option.none

end

/-- Models the Python str() builtin: on a str it is the string itself, on an
`obj` it is that object str() rendering (`Option.none` models __str__
raising), and on None, booleans, numbers and containers it coincides with
repr(). -/
def str_py : PyValue → Option String
  | PyValue.str s _ => some s
  | PyValue.obj s _ _ => s
  | v => repr_py v

/-- Python 2 text of a builtin type object, e.g. str(type(1)). -/
def typeName (s : String) : String :=
  "<type " ++ squote ++ s ++ squote ++ ">"

/-- Models the Python expression str(type(v)): for builtin shapes it always
succeeds with the fixed type text; for an `obj` the outcome is the modelled
object field (`Option.none` when the metaclass str raises). -/
def type_str : PyValue → Option String
  | PyValue.none => some (typeName "NoneType")
  | PyValue.bool _ => some (typeName "bool")
  | PyValue.int _ => some (typeName "int")
  | PyValue.str _ _ => some (typeName "str")
  | PyValue.list _ => some (typeName "list")
  | PyValue.tuple _ => some (typeName "tuple")
  | PyValue.dict _ => some (typeName "dict")
  | PyValue.obj _ t _ => t

mutual

/-- Models whether pickle.dumps(v) succeeds: builtin data always pickles,
containers pickle when their components do, an `obj` according to its
modelled flag. -/
def pickle_ok : PyValue → Bool
  | PyValue.none => true
  | PyValue.bool _ => true
  | PyValue.int _ => true
  | PyValue.str _ _ => true
  | PyValue.list xs => pickle_ok_list xs
  | PyValue.tuple xs => pickle_ok_list xs
  | PyValue.dict es => pickle_ok_entries es
  | PyValue.obj _ _ p => p

/-- pickle_ok over the elements of a list or tuple. -/
def pickle_ok_list : List PyValue → Bool
  | [] => true
  | x :: xs => pickle_ok x && pickle_ok_list xs

/-- pickle_ok over the entries of a dict. -/
def pickle_ok_entries : List (String × PyValue) → Bool
  | [] => true
  | (_, v) :: es => pickle_ok v && pickle_ok_entries es

end

/-- The reserved names excluded from every produced mapping
(source lines 106 and 224): bad_keys = ("__builtins__",). -/
def bad_keys : List String := ["__builtins__"]

/-- Embeds jsonable (source lines 119-126): json.dumps(v) must succeed and
the encoded text must not exceed 100 characters. -/
def jsonable (v : PyValue) : Bool :=
  match json_dumps v with
  | Option.none => false
  | some val => if val.length > 100 then false else true

/-- Embeds stringable (source lines 128-135): str(v) must succeed and the
rendering must have nonzero length strictly below 100. -/
def stringable (v : PyValue) : Bool :=
  match str_py v with
  | Option.none => false
  | some m => if m.length > 0 && m.length < 100 then true else false

/-- Embeds typeable (source lines 137-142): str(type(v)) must succeed. -/
def typeable (v : PyValue) : Bool :=
  match type_str v with
  | Option.none => false
  | some _ => true

/-- Embeds jsonable_nolength (source lines 144-149): json.dumps(v) must
succeed; no length bound. -/
def jsonable_nolength (v : PyValue) : Bool :=
  match json_dumps v with
  | Option.none => false
  | some _ => true

/-- Embeds stringable_nolength (source lines 151-156): str(v) must succeed;
no length bound. -/
def stringable_nolength (v : PyValue) : Bool :=
  match str_py v with
  | Option.none => false
  | some _ => true

/-- The body of the v_dict loop (source lines 158-167) for one entry value:
the display-tier reduction of v, `Option.none` when the entry is omitted. -/
def reduce_display (v : PyValue) : Option PyValue :=
  if jsonable v then some v
  else if stringable v then (str_py v).map (fun m => PyValue.str m false)
  else if typeable v then (type_str v).map (fun t => PyValue.str t false)
  else Option.none

/-- Embeds the v_dict loop (source lines 158-167): for every namespace
entry, skip reserved names, then store v when jsonable, else str(v) when
stringable, else str(type(v)) when typeable, else omit the entry. -/
def v_dict (g : List (String × PyValue)) : List (String × PyValue) :=
  g.filterMap (fun kv =>
    if kv.1 ∈ bad_keys then Option.none
    else (reduce_display kv.2).map (fun r => (kv.1, r)))

/-- The body of the real_vars loop (source lines 169-178) for one entry
value: the full-tier reduction of v, with no length bounds. -/
def reduce_full (v : PyValue) : Option PyValue :=
  if jsonable_nolength v then some v
  else if stringable_nolength v then (str_py v).map (fun m => PyValue.str m false)
  else if typeable v then (type_str v).map (fun t => PyValue.str t false)
  else Option.none

/-- Embeds the real_vars loop (source lines 169-178): same tier order as
v_dict but with the unbounded jsonable_nolength / stringable_nolength. -/
def real_vars (g : List (String × PyValue)) : List (String × PyValue) :=
  g.filterMap (fun kv =>
    if kv.1 ∈ bad_keys then Option.none
    else (reduce_full kv.2).map (fun r => (kv.1, r)))

/-- Embeds the p_dict comprehension (source lines 113-117): the entries
whose value pickles and whose name is not reserved. -/
def p_dict (g : List (String × PyValue)) : List (String × PyValue) :=
  g.filter (fun kv => pickle_ok kv.2 && !(decide (kv.1 ∈ bad_keys)))

/-- The Python isinstance check of json_safe (source lines 223 and 227):
ok_types = (NoneType, int, long, float, str, unicode, list, tuple, dict).
In the model: every shape except an arbitrary object (booleans pass because
bool is a subclass of int). -/
def isOkType : PyValue → Bool
  | PyValue.obj _ _ _ => false
  | _ => true

/-- The loop of json_safe (source lines 226-244): an entry survives into jd
when its value has an ok type, its key is not reserved, and the encode-then-
decode round trip raises no exception.  Keys are modelled as plain names,
which always round-trip, so the key check of line 240 always passes. -/
def json_safe_filter (d : List (String × PyValue)) : List (String × PyValue) :=
  d.filter (fun kv =>
    isOkType kv.2 && !(decide (kv.1 ∈ bad_keys)) && (json_roundtrip kv.2).isSome)

/-- Embeds json_safe (source lines 216-245): filter the namespace, then
return json.loads(json.dumps(jd)) of the surviving dict.  The final round
trip is the source line 245; `Option.none` models an exception escaping it
(shown impossible in json_safe_total below). -/
def json_safe (d : List (String × PyValue)) : Option (List (String × PyValue)) :=
  match json_roundtrip (PyValue.dict (json_safe_filter d)) with
  | some (PyValue.dict l) => some l
  | _ => Option.none

/-- Whitespace skipping of the JSON decoder. -/
def jskip (cs : List Char) : List Char :=
  cs.dropWhile (fun c => c = ' ' || c = '\n' || c = '\t' || c = '\r')

/-- Digits to a natural number (most significant first). -/
def digitsToNat (ds : List Char) : Nat :=
  ds.foldl (fun acc c => acc * 10 + (c.toNat - 48)) 0

/-- String-literal body of the JSON decoder: after an opening quote, read
characters up to the closing quote.  The model covers escape-free literals
only; a backslash or an unterminated literal is rejected. -/
def jparse_str : List Char → Option (String × List Char)
  | [] => Option.none
  | c :: cs =>
      if c = Char.ofNat 34 then some ("", cs)
      else if c = Char.ofNat 92 then Option.none
      else (jparse_str cs).map (fun r => (String.singleton c ++ r.1, r.2))

mutual

/-- Models json.loads as a recursive-descent reader of one JSON value:
null, true, false, integers, escape-free string literals, arrays and
objects, with any surrounding whitespace.  Inputs outside this fragment
(floats, escapes) are rejected; the source feeds it only decoder-produced
framing segments.  Returns the value and the unconsumed remainder;
`fuel` dominates the recursion depth. -/
def jparse : Nat → List Char → Option (PyValue × List Char)
  | 0, _ => Option.none
  | fuel + 1, cs =>
      match jskip cs with
      | 'n' :: 'u' :: 'l' :: 'l' :: rest => some (PyValue.none, rest)
      | 't' :: 'r' :: 'u' :: 'e' :: rest => some (PyValue.bool true, rest)
      | 'f' :: 'a' :: 'l' :: 's' :: 'e' :: rest => some (PyValue.bool false, rest)
      | c :: rest =>
          if c = Char.ofNat 34 then
            (jparse_str rest).map (fun r => (PyValue.str r.1 false, r.2))
          else if c = '[' then
            match jskip rest with
            | ']' :: rest2 => some (PyValue.list [], rest2)
            | rest2 =>
                match jparse_items fuel rest2 with
                | some (xs, rest3) => some (PyValue.list xs, rest3)
                | Option.none => Option.none
          else if c = Char.ofNat 123 then
            match jskip rest with
            | c2 :: rest2 =>
                if c2 = Char.ofNat 125 then some (PyValue.dict [], rest2)
                else
                  match jparse_members fuel (jskip rest) with
                  | some (es, rest3) => some (PyValue.dict es, rest3)
                  | Option.none => Option.none
            | [] => Option.none
          else if c = '-' then
            match rest.takeWhile Char.isDigit with
            | [] => Option.none
            | ds => some (PyValue.int (-(digitsToNat ds : Int)), rest.dropWhile Char.isDigit)
          else if c.isDigit then
            some (PyValue.int (digitsToNat ((c :: rest).takeWhile Char.isDigit)),
                  (c :: rest).dropWhile Char.isDigit)
          else Option.none
      | [] => Option.none

/-- Comma-separated array items, at least one. -/
def jparse_items : Nat → List Char → Option (List PyValue × List Char)
  | 0, _ => Option.none
  | fuel + 1, cs =>
      match jparse fuel cs with
      | some (v, rest) =>
          match jskip rest with
          | ',' :: rest2 =>
              match jparse_items fuel rest2 with
              | some (vs, rest3) => some (v :: vs, rest3)
              | Option.none => Option.none
          | ']' :: rest2 => some ([v], rest2)
          | _ => Option.none
      | Option.none => Option.none

/-- Comma-separated object members, at least one. -/
def jparse_members : Nat → List Char → Option (List (String × PyValue) × List Char)
  | 0, _ => Option.none
  | fuel + 1, cs =>
      match cs with
      | c :: rest =>
          if c = Char.ofNat 34 then
            match jparse_str rest with
            | some (k, rest2) =>
                match jskip rest2 with
                | ':' :: rest3 =>
                    match jparse fuel (jskip rest3) with
                    | some (v, rest4) =>
                        match jskip rest4 with
                        | ',' :: rest5 =>
                            match jparse_members fuel (jskip rest5) with
                            | some (es, rest6) => some ((k, v) :: es, rest6)
                            | Option.none => Option.none
                        | c2 :: rest5 =>
                            if c2 = Char.ofNat 125 then some ([(k, v)], rest5)
                            else Option.none
                        | [] => Option.none
                    | Option.none => Option.none
                | _ => Option.none
            | Option.none => Option.none
          else Option.none
      | [] => Option.none

end

/-- Models json.loads on one whole text: read one value, demand only
whitespace after it. -/
def json_loads (s : String) : Option PyValue :=
  match jparse (s.length + 1) s.data with
  | some (v, rest) => if jskip rest = [] then some v else Option.none
  | Option.none => Option.none

/-- Whether the character list starts with the given separator. -/
def leadsWith : List Char → List Char → Bool
  | [], _ => true
  | _ :: _, [] => false
  | a :: as, b :: bs => a = b && leadsWith as bs

/-- First occurrence of the (non-empty) separator in a character list:
the part before it and the part after it, or `Option.none` when the
separator does not occur. -/
def splitFind (sep : List Char) : List Char → Option (List Char × List Char)
  | [] => Option.none
  | c :: cs =>
      if leadsWith sep (c :: cs) then some ([], (c :: cs).drop sep.length)
      else (splitFind sep cs).map (fun r => (c :: r.1, r.2))

/-- Repeatedly cut at the leftmost separator occurrence; the fuel bounds the
number of cuts (one occurrence consumes at least one character, so the
initial fuel below is never exhausted). -/
def splitLoop (sep : List Char) : Nat → List Char → List (List Char)
  | 0, cs => [cs]
  | fuel + 1, cs =>
      match splitFind sep cs with
      | Option.none => [cs]
      | some (pre, post) => pre :: splitLoop sep fuel post

/-- Models the Python str.split(sep) method for a non-empty separator:
the pieces between consecutive non-overlapping leftmost occurrences of sep
(n occurrences yield n+1 pieces). -/
def py_split (s sep : String) : List String :=
  (splitLoop sep.data (s.data.length + 1) s.data).map (fun cs => String.mk cs)

/-- Result of one run of the external isolation runner: exit status and the
captured standard streams (spec section 6). -/
structure SandboxResult where
  status : Int
  stdout : String
  stderr : String

/-- A Python exception escaping a modelled call: SafeExecException (the
failure type the source raises at lines 205 and 282), the ValueError that
line 209 or 210-211 raises on malformed framing, or an IOError from a file
operation. -/
inductive PyErr where
  | safeExec : String → PyErr
  | valueError : String → PyErr
  | ioError : String → PyErr

/-- The exception raised by the foreign code, as the debug executor
observes it: class name and message. -/
structure PyExc where
  cls : String
  msg : String

/-- The sentinel line separating the framed stdout segments: the far side
prints the bare sentinel (lines 182, 184, 186), so each separator on the
wire is the sentinel text followed by the newline that print appends, and
line 209 splits on exactly that text. -/
def pickle_sentinel : String := "PICKLE_DATA:" ++ "\n"

/-- os.path.basename: the part after the last slash. -/
def basename (p : String) : String := (py_split p "/").getLastD p

/-- The arguments safe_exec hands to jail_code.jail_code at lines 200-203:
the staged files (the caller files plus, from lines 93-97, every
python_path entry whose base name is not among the inline file names), the
inline extra_files passed through unchanged, and the (code, globals)
payload serialized to stdin at line 191.  The generated program text
(the_code) is not modelled as a string; its behavior is the far-side codec
above (v_dict, real_vars, p_dict). -/
structure JailRequest where
  files : List String
  extra_files : List (String × String)
  payload_code : String
  payload_globals : List (String × PyValue)
  slug : Option String

/-- Embeds the request-building half of safe_exec (source lines 69-203). -/
def safe_exec_request (code : String) (globals_dict : List (String × PyValue))
    (files : List String) (python_path : List String)
    (slug : Option String) (extra_files : List (String × String)) : JailRequest :=
  let extra_names := extra_files.map Prod.fst
  { files := files ++ python_path.filter (fun p => !(extra_names.contains (basename p))),
    extra_files := extra_files,
    payload_code := code,
    payload_globals := globals_dict,
    slug := slug }

/-- Embeds the result-handling half of safe_exec (source lines 204-213):
non-zero status raises SafeExecException with the runner stderr appended to
the fixed prefix; on status 0 the stdout must split on the sentinel into
exactly four segments (the four-name unpacking at line 209 raises a
ValueError otherwise), the display and full segments are JSON-decoded
(line 210-211, ValueError on undecodable text), and the returned dict is
assembled at line 212. -/
def safe_exec_unpack (res : SandboxResult) : Except PyErr PyValue :=
  if res.status ≠ 0 then
    Except.error (PyErr.safeExec ("Couldn" ++ squote ++ "t execute jailed code: " ++ res.stderr))
  else
    match py_split res.stdout pickle_sentinel with
    | [output, data, display_vars, real_vars] =>
        match json_loads display_vars, json_loads real_vars with
        | some dv, some rv =>
            Except.ok (PyValue.dict
              [("output", PyValue.str output false),
               ("data", PyValue.str data false),
               ("display_vars", dv),
               ("real_vars", rv)])
        | _, _ => Except.error (PyErr.valueError "No JSON object could be decoded")
    | _ => Except.error (PyErr.valueError "unpacking requires exactly 4 values")

/-- Embeds safe_exec (source lines 36-213) against an arbitrary runner
behavior.  First component: the caller globals_dict after the call - the
host side only reads it (pickled at line 191) and line 212 rebinds a local
name, so the caller dict comes back unchanged.  Second component: the value
returned or the exception raised. -/
def safe_exec (runner : JailRequest → SandboxResult) (code : String)
    (globals_dict : List (String × PyValue)) (files : List String)
    (python_path : List String) (slug : Option String)
    (extra_files : List (String × String)) :
    List (String × PyValue) × Except PyErr PyValue :=
  (globals_dict,
   safe_exec_unpack
     (runner (safe_exec_request code globals_dict files python_path slug extra_files)))

/-- Modelled from the spec: the isolation runner jail_code.jail_code lives
in codejail/jail_code.py, which is not under src/.  Spec sections 6 and 7
(and the safe_exec docstring, source lines 63-66): when the foreign code
raises, the far-side process exits non-zero and the captured stderr is the
interpreter diagnostic, which includes the original exception class and
message. -/
def runner_on_raise (e : PyExc) : SandboxResult :=
  { status := 1, stdout := "",
    stderr := "Traceback (most recent call last):" ++ "\n"
              ++ e.cls ++ ": " ++ e.msg ++ "\n" }

/-- s has sub as a contiguous substring. -/
def containsStr (s sub : String) : Prop := ∃ p q, s = p ++ sub ++ q

/-- What one not_safe_exec call leaves behind: the returned value or raised
exception, and the contents of the process-wide sys.path list after the
call. -/
structure DebugResult where
  outcome : Except PyErr PyValue
  sysPathAfter : List String

/-- Filesystem model for one not_safe_exec call: the scratch directory is
freshly created and empty, every ancestor directory of it exists, and
nothing else is modelled.  open(os.path.join(tmpdir, filename), "w") at
lines 268-269 then succeeds exactly when every intermediate segment of the
filename is "." or ".." - each resolving to an existing directory, the
scratch directory or an ancestor - and raises IOError on any other
intermediate segment, which names a directory missing from the fresh
scratch directory. -/
def write_ok (filename : String) : Bool :=
  ((py_split filename "/").dropLast).all (fun seg => seg = "." || seg = "..")

/-- Embeds not_safe_exec (source lines 248-284).

Parameters: the caller globals (downgraded through json_safe at line 259),
the inline extra_files written at lines 267-270 (the staged-files copy loop
at lines 264-266 has filesystem-only effects and is not further modelled),
python_path, the contents of the process-wide sys.path list at entry, and
`exec_outcome`, which models what `exec code in g_dict` at line 276 does:
`Option.none` a normal return, `some e` the code raising exception e.

The sys.path handling at lines 272-284 aliases: original_path = sys.path
binds the same list object as sys.path; sys.path.extend(python_path)
mutates that shared object in place; the finally clause sys.path =
original_path rebinds sys.path to the same already-extended object.  The
model therefore leaves the extended contents in place on every exit path
that reaches line 274. -/
def not_safe_exec (globals_dict : List (String × PyValue))
    (extra_files : List (String × String)) (python_path : List String)
    (sys_path : List String) (exec_outcome : Option PyExc) : DebugResult :=
  match json_safe globals_dict with
  | Option.none =>
      { outcome := Except.error (PyErr.valueError "json_safe"),
        sysPathAfter := sys_path }
  | some _g_dict =>
      match extra_files.find? (fun fc => !(write_ok fc.1)) with
      | some fc =>
          { outcome := Except.error (PyErr.ioError fc.1),
            sysPathAfter := sys_path }
      | Option.none =>
          let path_after := if python_path.isEmpty then sys_path
                            else sys_path ++ python_path
          match exec_outcome with
          | some e =>
              { outcome := Except.error (PyErr.safeExec (e.cls ++ ": " ++ e.msg)),
                sysPathAfter := path_after }
          | Option.none =>
              { outcome := Except.ok PyValue.none,
                sysPathAfter := path_after }

/-- Embeds the UNSAFE override of safe_exec (source lines 291-303): when
the debug strategy is selected at import time, safe_exec logs a warning and
returns the value of not_safe_exec directly (line 303), so the success
value on this path is the Python None that not_safe_exec falls off the end
with. -/
def safe_exec_override (globals_dict : List (String × PyValue))
    (extra_files : List (String × String)) (python_path : List String)
    (sys_path : List String) (exec_outcome : Option PyExc) : DebugResult :=
  not_safe_exec globals_dict extra_files python_path sys_path exec_outcome

/-- Keys of an association-list namespace. -/
def keys (l : List (String × PyValue)) : List String := l.map Prod.fst

/-- Lookup in an association-list namespace (Python dict indexing; the
namespaces carry pairwise-distinct keys). -/
def alookup (k : String) : List (String × PyValue) → Option PyValue
  | [] => Option.none
  | kv :: rest => if kv.1 = k then some kv.2 else alookup k rest

/-- json.dumps succeeds on a dict as soon as it succeeds on every entry
value (string keys always encode). -/
theorem json_dumps_entries_isSome (es : List (String × PyValue))
    (h : ∀ kv ∈ es, (json_dumps kv.2).isSome) :
    (json_dumps_entries es).isSome := by
  induction es with
  | nil => simp [json_dumps_entries]
  | cons kv rest ih =>
      obtain ⟨k, v⟩ := kv
      obtain ⟨s, hs⟩ := Option.isSome_iff_exists.mp (h (k, v) (List.mem_cons_self _ _))
      obtain ⟨ss, hss⟩ := Option.isSome_iff_exists.mp
        (ih (fun kv hkv => h kv (List.mem_cons_of_mem _ hkv)))
      simp [json_dumps_entries, hs, hss]

/-- A dict holds a bad string exactly when some entry value does; here the
direction needed: none of the entries bad, dict not bad. -/
theorem hasBadStr_entries_false (es : List (String × PyValue))
    (h : ∀ kv ∈ es, hasBadStr kv.2 = false) :
    hasBadStr_entries es = false := by
  induction es with
  | nil => simp [hasBadStr_entries]
  | cons kv rest ih =>
      obtain ⟨k, v⟩ := kv
      simp [hasBadStr_entries, h (k, v) (List.mem_cons_self _ _),
        ih (fun kv hkv => h kv (List.mem_cons_of_mem _ hkv))]

/-- The round trip succeeds exactly when the encoder succeeds and no
contained string breaks the decoder. -/
theorem json_roundtrip_isSome_iff (v : PyValue) :
    (json_roundtrip v).isSome ↔ ((json_dumps v).isSome ∧ hasBadStr v = false) := by
  unfold json_roundtrip
  split
  · next h => simp_all [Bool.and_eq_true, Bool.not_eq_true']
  · next h => simp_all [Bool.and_eq_true, Bool.not_eq_true']

/-- The canonicalized dict keeps its keys. -/
theorem keys_jsonCanon_entries (es : List (String × PyValue)) :
    keys (jsonCanon_entries es) = keys es := by
  induction es with
  | nil => rfl
  | cons kv rest ih =>
      obtain ⟨k, v⟩ := kv
      simp [jsonCanon_entries, keys] at ih ⊢
      exact ih

/-- The final round trip of json_safe (source line 245) cannot raise: every
entry surviving the filter already round-tripped, so the dict of survivors
encodes and decodes, and json_safe returns the canonicalized survivors. -/
theorem json_safe_total (d : List (String × PyValue)) :
    json_safe d = some (jsonCanon_entries (json_safe_filter d)) := by
  have hall : ∀ kv ∈ json_safe_filter d, (json_roundtrip kv.2).isSome := by
    intro kv hkv
    have := (List.mem_filter.mp hkv).2
    simp only [Bool.and_eq_true] at this
    exact this.2
  have h1 : (json_dumps (PyValue.dict (json_safe_filter d))).isSome := by
    simp only [json_dumps, Option.isSome_map']
    exact json_dumps_entries_isSome _
      (fun kv hkv => ((json_roundtrip_isSome_iff kv.2).mp (hall kv hkv)).1)
  have h2 : hasBadStr (PyValue.dict (json_safe_filter d)) = false := by
    simp only [hasBadStr]
    exact hasBadStr_entries_false _
      (fun kv hkv => ((json_roundtrip_isSome_iff kv.2).mp (hall kv hkv)).2)
  simp [json_safe, json_roundtrip, h1, h2, jsonCanon]

/-- Keys of a filtered namespace are among the original keys. -/
theorem keys_filter_subset (p : String × PyValue → Bool)
    (d : List (String × PyValue)) (k : String)
    (h : k ∈ keys (d.filter p)) : k ∈ keys d := by
  obtain ⟨kv, hkv, rfl⟩ := List.mem_map.mp h
  exact List.mem_map.mpr ⟨kv, (List.mem_filter.mp hkv).1, rfl⟩

/-- Key membership after filtering a namespace with distinct keys: the key
of a present entry survives exactly when the entry passes the filter. -/
theorem mem_keys_filter (p : String × PyValue → Bool)
    (d : List (String × PyValue)) (k : String) (v : PyValue)
    (hnd : (keys d).Nodup) (hmem : (k, v) ∈ d) :
    k ∈ keys (d.filter p) ↔ p (k, v) = true := by
  induction d with
  | nil => cases hmem
  | cons kv rest ih =>
      have hnd' : kv.1 ∉ keys rest ∧ (keys rest).Nodup := by
        simpa [keys] using hnd
      rcases List.mem_cons.mp hmem with heq | hmem'
      · subst heq
        by_cases hp : p (k, v) = true
        · simp [List.filter_cons, hp, keys]
        · have hk : k ∉ keys (rest.filter p) :=
            fun hc => hnd'.1 (keys_filter_subset p rest k hc)
          simp only [List.filter_cons]
          simp only [Bool.not_eq_true] at hp
          simp [hp, hk]
      · have hkmem : k ∈ keys rest := List.mem_map.mpr ⟨(k, v), hmem', rfl⟩
        have hne : kv.1 ≠ k := fun he => hnd'.1 (he ▸ hkmem)
        have := ih hnd'.2 hmem'
        by_cases hp : p kv = true
        · simpa [List.filter_cons, hp, keys, hne.symm] using this
        · simp only [Bool.not_eq_true] at hp
          simpa [List.filter_cons, hp, keys] using this

/-- A key absent from the namespace is absent from a reduced mapping built
by the filterMap shape that v_dict and real_vars share. -/
theorem alookup_reduce_not_mem (f : PyValue → Option PyValue)
    (g : List (String × PyValue)) (k : String) (hk : k ∉ keys g) :
    alookup k (g.filterMap (fun kv =>
      if kv.1 ∈ bad_keys then Option.none
      else (f kv.2).map (fun r => (kv.1, r)))) = Option.none := by
  induction g with
  | nil => rfl
  | cons kv rest ih =>
      simp only [keys, List.map_cons, List.mem_cons, not_or] at hk
      have hk1 : kv.1 ≠ k := fun he => hk.1 he.symm
      have ihr := ih (by simpa [keys] using hk.2)
      simp only [List.filterMap_cons]
      by_cases hb : kv.1 ∈ bad_keys
      · simp [if_pos hb, ihr]
      · rw [if_neg hb]
        cases hfv : f kv.2 with
        | none => simpa [hfv] using ihr
        | some r => simpa [hfv, alookup, hk1] using ihr

/-- Lookup in a reduced mapping of the v_dict / real_vars shape: for a
namespace with distinct keys, a present non-reserved key maps to the
reduction of its value. -/
theorem alookup_reduce (f : PyValue → Option PyValue)
    (g : List (String × PyValue)) (k : String) (v : PyValue)
    (hnd : (keys g).Nodup) (hmem : (k, v) ∈ g)
    (hk : k ∉ bad_keys) :
    alookup k (g.filterMap (fun kv =>
      if kv.1 ∈ bad_keys then Option.none
      else (f kv.2).map (fun r => (kv.1, r)))) = f v := by
  induction g with
  | nil => cases hmem
  | cons kv rest ih =>
      have hnd' : kv.1 ∉ keys rest ∧ (keys rest).Nodup := by simpa [keys] using hnd
      rcases List.mem_cons.mp hmem with heq | hmem'
      · subst heq
        simp only [List.filterMap_cons]
        rw [if_neg hk]
        cases hfv : f v with
        | none =>
            simpa [hfv] using alookup_reduce_not_mem f rest k hnd'.1
        | some r => simp [hfv, alookup]
      · have hkmem : k ∈ keys rest := List.mem_map.mpr ⟨(k, v), hmem', rfl⟩
        have hne : kv.1 ≠ k := fun he => hnd'.1 (he ▸ hkmem)
        have ihr := ih hnd'.2 hmem'
        simp only [List.filterMap_cons]
        by_cases hb : kv.1 ∈ bad_keys
        · simp [if_pos hb, ihr]
        · rw [if_neg hb]
          cases hfv : f kv.2 with
          | none => simpa [hfv] using ihr
          | some r => simpa [hfv, alookup, hne] using ihr

/-- Lookup in the display mapping (v_dict) of a distinct-keys namespace:
a present, non-reserved name maps to the display-tier reduction of its
value. -/
theorem alookup_v_dict (g : List (String × PyValue)) (k : String) (v : PyValue)
    (hnd : (keys g).Nodup) (hmem : (k, v) ∈ g)
    (hk : k ∉ bad_keys) :
    alookup k (v_dict g) = reduce_display v :=
  alookup_reduce reduce_display g k v hnd hmem hk

/-- Lookup in the full mapping (real_vars) of a distinct-keys namespace:
a present, non-reserved name maps to the full-tier reduction of its
value. -/
theorem alookup_real_vars (g : List (String × PyValue)) (k : String) (v : PyValue)
    (hnd : (keys g).Nodup) (hmem : (k, v) ∈ g)
    (hk : k ∉ bad_keys) :
    alookup k (real_vars g) = reduce_full v :=
  alookup_reduce reduce_full g k v hnd hmem hk

/-- When every inline file write succeeds, the debug executor reaches the
exec statement, and its outcome is decided by the foreign code alone: a
SafeExecException wrapping class and message when it raises (source lines
277-282), the Python None return otherwise. -/
theorem not_safe_exec_outcome (g : List (String × PyValue))
    (ef : List (String × String)) (pp sp : List String)
    (eo : Option PyExc) (hw : ∀ fc ∈ ef, write_ok fc.1 = true) :
    (not_safe_exec g ef pp sp eo).outcome
      = (match eo with
         | some e => Except.error (PyErr.safeExec (e.cls ++ ": " ++ e.msg))
         | Option.none => Except.ok PyValue.none) := by
  have hfind : ef.find? (fun fc => !(write_ok fc.1)) = Option.none := by
    rw [List.find?_eq_none]
    intro fc hfc
    simp [hw fc hfc]
  unfold not_safe_exec
  rw [json_safe_total, hfind]
  cases eo <;> rfl

/-- Claim C1, counterexample: json_safe keeps the entry ("a", (1,)) even
though the tuple (1,) does not round-trip to an equal value - the decode of
its encode is the list [1], and the retained entry itself comes back as
[1].  The code checks only that the round trip raises no exception, not
that it returns an equal value, so the claimed equality condition is not
what decides retention. -/
theorem C1_counterexample :
    json_safe [("a", PyValue.tuple [PyValue.int 1])]
      = some [("a", PyValue.list [PyValue.int 1])]
    ∧ json_roundtrip (PyValue.tuple [PyValue.int 1])
      ≠ some (PyValue.tuple [PyValue.int 1]) := by
  refine ⟨rfl, fun h => ?_⟩
  have h2 : PyValue.list [PyValue.int 1] = PyValue.tuple [PyValue.int 1] :=
    Option.some.inj h
  cases h2

/-- Claim C1 (amended): for a namespace with pairwise-distinct keys, the
json_safe output contains a present key k with value v exactly when v is
of an ok JSON-representable shape, the encode-then-decode round trip of v
raises no exception, and k is not reserved (key round trips always succeed
for the modelled names).  The original claim further required the round
trip to return a value equal to v; the code never compares values, see the
counterexample. -/
theorem C1_json_safe_mem (d : List (String × PyValue)) (k : String)
    (v : PyValue) (l : List (String × PyValue))
    (hnd : (keys d).Nodup) (hmem : (k, v) ∈ d) (hl : json_safe d = some l) :
    k ∈ keys l
      ↔ (isOkType v = true ∧ (json_roundtrip v).isSome ∧ k ∉ bad_keys) := by
  rw [json_safe_total] at hl
  obtain rfl : l = jsonCanon_entries (json_safe_filter d) := (Option.some.inj hl).symm
  rw [keys_jsonCanon_entries]
  unfold json_safe_filter
  rw [mem_keys_filter _ d k v hnd hmem]
  simp [Bool.and_eq_true]
  tauto

/-- Witness for C1 at a concrete namespace. -/
theorem C1_witness : "a" ∈ keys [("a", PyValue.int 2)] :=
  (C1_json_safe_mem [("a", PyValue.int 2)] "a" (PyValue.int 2)
      [("a", PyValue.int 2)] (by simp [keys]) (by simp) rfl).mpr
    ⟨rfl, by rfl, by simp [bad_keys]⟩

/-- Claim C2, counterexample: a request whose inline filename contains a
path separator is not rejected.  On the debug path the inline file
../evil.txt joins to a path whose parent exists (the parent of the scratch
directory), the write succeeds - outside the scratch directory - and the
code is executed, the call returning normally; and safe_exec performs no
validation either, passing the inline files unchanged into the sandbox
invocation it always makes. -/
theorem C2_counterexample :
    (not_safe_exec [] [("../evil.txt", "h")] [] ["p"] Option.none).outcome
      = Except.ok PyValue.none
    ∧ (safe_exec_request "x = 1" [] [] [] Option.none
        [("../evil.txt", "h")]).extra_files = [("../evil.txt", "h")] :=
  ⟨rfl, rfl⟩

/-- Claim C2 (amended): no path-separator validation exists on either path.
safe_exec forwards the inline files unchanged to the jail_code invocation
for every request, and not_safe_exec proceeds to execute the code whenever
every joined inline path has an existing parent directory - in particular
for filenames beginning with ./ or ../ - failing early only with an
IOError from the file write when an intermediate directory is missing,
never with a validation error. -/
theorem C2_no_rejection (code : String) (g : List (String × PyValue))
    (files python_path : List String) (slug : Option String)
    (ef : List (String × String)) (sys_path : List String)
    (eo : Option PyExc) (hw : ∀ fc ∈ ef, write_ok fc.1 = true) :
    (safe_exec_request code g files python_path slug ef).extra_files = ef
    ∧ (not_safe_exec g ef python_path sys_path eo).outcome
        = (match eo with
           | some e => Except.error (PyErr.safeExec (e.cls ++ ": " ++ e.msg))
           | Option.none => Except.ok PyValue.none) :=
  ⟨rfl, not_safe_exec_outcome g ef python_path sys_path eo hw⟩

/-- Witness for C2 at a concrete request whose inline filename contains a
path separator. -/
theorem C2_witness :
    (not_safe_exec [] [("./data.txt", "hello")] [] ["p"] Option.none).outcome
      = Except.ok PyValue.none :=
  (C2_no_rejection "x = 1" [] [] [] Option.none [("./data.txt", "hello")]
      ["p"] Option.none (by decide)).2

/-- Claim C3: the claim (and the clear intent of the try/finally at source
lines 272-284) is that sys.path is restored on every exit path; the code
slips: original_path = sys.path aliases the same list object that
sys.path.extend then mutates, so the finally clause reassigns the already-
extended object.  Evaluating the model at the failing input python_path =
["lib"], initial sys.path ["p"]: after the call sys.path is ["p", "lib"],
not the original ["p"], both on normal return and when the code raises. -/
theorem C3_sys_path_not_restored :
    (not_safe_exec [] [] ["lib"] ["p"] Option.none).sysPathAfter = ["p", "lib"]
    ∧ (not_safe_exec [] [] ["lib"] ["p"]
        (some { cls := "ValueError", msg := "boom" })).sysPathAfter = ["p", "lib"]
    ∧ (["p", "lib"] : List String) ≠ ["p"] := by
  refine ⟨rfl, rfl, by decide⟩

/-- Claim C4: the display mapping follows the exact tiered fallback for
every present, non-reserved entry of a distinct-keys namespace: the value
itself when its JSON encoding succeeds within 100 characters; else its
textual rendering when that succeeds with length 1 to 99; else the textual
name of its type when computable; else the entry is omitted. -/
theorem C4_display_tiers (g : List (String × PyValue)) (k : String)
    (v : PyValue) (hnd : (keys g).Nodup) (hmem : (k, v) ∈ g)
    (hk : k ∉ bad_keys) :
    alookup k (v_dict g)
      = (match json_dumps v with
         | some t =>
             if t.length ≤ 100 then some v
             else
               match str_py v with
               | some m =>
                   if 1 ≤ m.length ∧ m.length ≤ 99 then some (PyValue.str m false)
                   else (type_str v).map (fun tn => PyValue.str tn false)
               | Option.none => (type_str v).map (fun tn => PyValue.str tn false)
         | Option.none =>
             match str_py v with
             | some m =>
                 if 1 ≤ m.length ∧ m.length ≤ 99 then some (PyValue.str m false)
                 else (type_str v).map (fun tn => PyValue.str tn false)
             | Option.none => (type_str v).map (fun tn => PyValue.str tn false)) := by
  rw [alookup_v_dict g k v hnd hmem hk]
  unfold reduce_display jsonable stringable typeable
  cases hj : json_dumps v with
  | some t =>
      by_cases hlen : t.length ≤ 100
      · simp [hj, Nat.not_lt.mpr hlen, hlen]
      · have hgt : t.length > 100 := Nat.lt_of_not_le hlen
        cases hs : str_py v with
        | some m =>
            by_cases hm : 1 ≤ m.length ∧ m.length ≤ 99
            · have hb : (m.length > 0 && m.length < 100) = true := by
                simp only [Bool.and_eq_true, decide_eq_true_eq]
                omega
            
              simp [hj, hgt, hs, hb, hm, hlen]
            · have hb : (m.length > 0 && m.length < 100) = false := by
                simp only [Bool.and_eq_false_iff, decide_eq_false_iff_not]
                omega
              cases ht : type_str v <;>
                simp [hj, hgt, hs, hb, hm, hlen, ht]
        | none =>
            cases ht : type_str v <;> simp [hj, hgt, hs, hlen, ht]
  | none =>
      cases hs : str_py v with
      | some m =>
          by_cases hm : 1 ≤ m.length ∧ m.length ≤ 99
          · have hb : (m.length > 0 && m.length < 100) = true := by
              simp only [Bool.and_eq_true, decide_eq_true_eq]
              omega
            simp [hj, hs, hb, hm]
          · have hb : (m.length > 0 && m.length < 100) = false := by
              simp only [Bool.and_eq_false_iff, decide_eq_false_iff_not]
              omega
            cases ht : type_str v <;> simp [hj, hs, hb, hm, ht]
      | none =>
          cases ht : type_str v <;> simp [hj, hs, ht]

/-- Witness for C4 at a concrete namespace: an integer passes the first
tier and is displayed as itself. -/
theorem C4_witness :
    alookup "x" (v_dict [("x", PyValue.int 2)]) = some (PyValue.int 2) := by
  simpa using C4_display_tiers [("x", PyValue.int 2)] "x" (PyValue.int 2)
    (by simp [keys]) (by simp) (by simp [bad_keys])

/-- Claim C5, counterexample: a value with no JSON rendering whose textual
rendering is exactly 100 characters long is NOT absent from the display
mapping: it falls through the length-bounded rendering tier into the
type-name tier, so its name is present in display, mapped to str(type(v)).
(It is present in full, as the claim also says.) -/
theorem C5_counterexample :
    json_dumps (PyValue.obj (some (String.mk (List.replicate 100 'x')))
        (some "typeT") false) = Option.none
    ∧ str_py (PyValue.obj (some (String.mk (List.replicate 100 'x')))
        (some "typeT") false) = some (String.mk (List.replicate 100 'x'))
    ∧ (String.mk (List.replicate 100 'x')).length = 100
    ∧ alookup "x" (real_vars [("x", PyValue.obj
        (some (String.mk (List.replicate 100 'x'))) (some "typeT") false)])
        = some (PyValue.str (String.mk (List.replicate 100 'x')) false)
    ∧ alookup "x" (v_dict [("x", PyValue.obj
        (some (String.mk (List.replicate 100 'x'))) (some "typeT") false)])
        = some (PyValue.str "typeT" false)
    ∧ some (PyValue.str "typeT" false) ≠ (Option.none : Option PyValue) := by
  exact ⟨rfl, rfl, rfl, rfl, rfl, fun h => Option.noConfusion h⟩

/-- Claim C5 (amended): for a present, non-reserved entry of a distinct-keys
namespace whose value has no JSON rendering and whose textual rendering is
exactly 100 characters long, the name is present in the full mapping,
mapped to that rendering; in the display mapping it is mapped to the
textual name of the type of the value when that is computable, and omitted
only when even the type name cannot be computed. -/
theorem C5_hundred_char (g : List (String × PyValue)) (k : String)
    (v : PyValue) (m : String) (hnd : (keys g).Nodup) (hmem : (k, v) ∈ g)
    (hk : k ∉ bad_keys) (hj : json_dumps v = Option.none)
    (hs : str_py v = some m) (hlen : m.length = 100) :
    alookup k (real_vars g) = some (PyValue.str m false)
    ∧ alookup k (v_dict g) = (type_str v).map (fun tn => PyValue.str tn false) := by
  constructor
  · rw [alookup_real_vars g k v hnd hmem hk]
    unfold reduce_full jsonable_nolength stringable_nolength
    simp [hj, hs]
  · rw [alookup_v_dict g k v hnd hmem hk]
    unfold reduce_display jsonable stringable typeable
    have hb : (m.length > 0 && m.length < 100) = false := by
      simp only [Bool.and_eq_false_iff, decide_eq_false_iff_not]
      omega
    cases ht : type_str v <;> simp [hj, hs, hb, ht]

/-- Witness for C5 at a concrete namespace. -/
theorem C5_witness :
    alookup "x" (real_vars [("x", PyValue.obj
        (some (String.mk (List.replicate 100 'x'))) (some "typeT") false)])
      = some (PyValue.str (String.mk (List.replicate 100 'x')) false) :=
  (C5_hundred_char
      [("x", PyValue.obj (some (String.mk (List.replicate 100 'x')))
        (some "typeT") false)]
      "x" (PyValue.obj (some (String.mk (List.replicate 100 'x')))
        (some "typeT") false)
      (String.mk (List.replicate 100 'x'))
      (by simp [keys]) (by simp) (by simp [bad_keys]) rfl rfl rfl).1

/-- Claim C6: SafeExecException is raised exactly when the far side failed.
Isolated path: precisely on non-zero runner status, and the message embeds
the runner stderr; on status 0 no SafeExecException arises (protocol
errors are ValueErrors, a different exception).  Debug path: precisely
when the foreign code raises, with the exception class and message as the
failure message.  Instantiated at ValueError boom the message contains
boom on both strategies, the isolated side through the spec-modelled
runner diagnostic. -/
theorem C6_execution_failure :
    (∀ res : SandboxResult, res.status ≠ 0 →
        safe_exec_unpack res = Except.error (PyErr.safeExec
          ("Couldn" ++ squote ++ "t execute jailed code: " ++ res.stderr))
        ∧ containsStr ("Couldn" ++ squote ++ "t execute jailed code: "
            ++ res.stderr) res.stderr)
    ∧ (∀ res : SandboxResult, res.status = 0 →
        ∀ m, safe_exec_unpack res ≠ Except.error (PyErr.safeExec m))
    ∧ (∀ g ef pp sp (e : PyExc), (∀ fc ∈ ef, write_ok fc.1 = true) →
        (not_safe_exec g ef pp sp (some e)).outcome
          = Except.error (PyErr.safeExec (e.cls ++ ": " ++ e.msg))
        ∧ containsStr (e.cls ++ ": " ++ e.msg) e.msg)
    ∧ (∀ g ef pp sp, (∀ fc ∈ ef, write_ok fc.1 = true) →
        ∀ m, (not_safe_exec g ef pp sp Option.none).outcome
          ≠ Except.error (PyErr.safeExec m))
    ∧ (∃ mi, safe_exec_unpack (runner_on_raise { cls := "ValueError", msg := "boom" })
          = Except.error (PyErr.safeExec mi) ∧ containsStr mi "boom")
    ∧ (∃ md, (not_safe_exec [] [] [] []
          (some { cls := "ValueError", msg := "boom" })).outcome
          = Except.error (PyErr.safeExec md) ∧ containsStr md "boom") := by
  refine ⟨?_, ?_, ?_, ?_, ?_, ?_⟩
  · intro res h
    refine ⟨?_, "Couldn" ++ squote ++ "t execute jailed code: ", "", ?_⟩
    · unfold safe_exec_unpack
      rw [if_pos h]
    · simp
  · intro res h m
    unfold safe_exec_unpack
    rw [if_neg (by simp [h])]
    split
    · split <;> simp
    · simp
  · intro g ef pp sp e hw
    refine ⟨?_, e.cls ++ ": ", "", ?_⟩
    · rw [not_safe_exec_outcome g ef pp sp (some e) hw]
    · simp
  · intro g ef pp sp hw m
    rw [not_safe_exec_outcome g ef pp sp Option.none hw]
    simp
  · refine ⟨"Couldn" ++ squote ++ "t execute jailed code: "
        ++ (runner_on_raise { cls := "ValueError", msg := "boom" }).stderr,
      rfl, "Couldn" ++ squote ++ "t execute jailed code: "
        ++ "Traceback (most recent call last):" ++ "\n" ++ "ValueError: ",
      "\n", by decide⟩
  · exact ⟨"ValueError: boom", rfl, "ValueError: ", "", by decide⟩

/-- Witness for C6 at a concrete failing sandbox result. -/
theorem C6_witness :
    safe_exec_unpack { status := 1, stdout := "", stderr := "err" }
      = Except.error (PyErr.safeExec
          ("Couldn" ++ squote ++ "t execute jailed code: " ++ "err")) :=
  (C6_execution_failure.1 { status := 1, stdout := "", stderr := "err" }
    (by decide)).1

/-- Claim C7: on runner status 0 the unpacker splits the captured stdout on
the sentinel line; exactly four segments yield the record assembled from
them in order (raw output, opaque payload, decoded display JSON, decoded
full JSON), and any other segment count makes the call fail with a
ValueError rather than return a record. -/
theorem C7_unpack (res : SandboxResult) (hst : res.status = 0) :
    (∀ o d dv rv jd jr,
        py_split res.stdout pickle_sentinel = [o, d, dv, rv] →
        json_loads dv = some jd → json_loads rv = some jr →
        safe_exec_unpack res = Except.ok (PyValue.dict
          [("output", PyValue.str o false), ("data", PyValue.str d false),
           ("display_vars", jd), ("real_vars", jr)]))
    ∧ ((py_split res.stdout pickle_sentinel).length ≠ 4 →
        ∃ m, safe_exec_unpack res = Except.error (PyErr.valueError m)) := by
  constructor
  · intro o d dv rv jd jr hsplit hjd hjr
    unfold safe_exec_unpack
    rw [if_neg (by simp [hst]), hsplit]
    simp [hjd, hjr]
  · intro hlen
    unfold safe_exec_unpack
    rw [if_neg (by simp [hst])]
    rcases hs : py_split res.stdout pickle_sentinel with _ | ⟨a, _ | ⟨b, _ | ⟨c, _ | ⟨d, _ | ⟨e, t⟩⟩⟩⟩⟩
    · exact ⟨_, rfl⟩
    · exact ⟨_, rfl⟩
    · exact ⟨_, rfl⟩
    · exact ⟨_, rfl⟩
    · exact absurd (by rw [hs]; rfl) hlen
    · exact ⟨_, rfl⟩

/-- Witness for C7 at a concrete well-framed sandbox result. -/
theorem C7_witness :
    safe_exec_unpack
      { status := 0,
        stdout := "outPICKLE_DATA:\npdPICKLE_DATA:\n" ++ obrace ++ cbrace
          ++ "PICKLE_DATA:\n" ++ obrace ++ cbrace,
        stderr := "" }
      = Except.ok (PyValue.dict
          [("output", PyValue.str "out" false),
           ("data", PyValue.str "pd" false),
           ("display_vars", PyValue.dict []),
           ("real_vars", PyValue.dict [])]) :=
  (C7_unpack _ rfl).1 "out" "pd" (obrace ++ cbrace) (obrace ++ cbrace)
    (PyValue.dict []) (PyValue.dict []) rfl rfl rfl

/-- A key of a reduced mapping of the v_dict / real_vars filterMap shape is
never reserved. -/
theorem mem_keys_reduce_not_reserved (f : PyValue → Option PyValue)
    (g : List (String × PyValue)) (k : String)
    (h : k ∈ keys (g.filterMap (fun kv =>
      if kv.1 ∈ bad_keys then Option.none
      else (f kv.2).map (fun r => (kv.1, r))))) : k ∉ bad_keys := by
  induction g with
  | nil => cases h
  | cons kv rest ih =>
      simp only [List.filterMap_cons] at h
      by_cases hb : kv.1 ∈ bad_keys
      · rw [if_pos hb] at h
        exact ih h
      · rw [if_neg hb] at h
        cases hfv : f kv.2 with
        | none =>
            rw [hfv] at h
            exact ih h
        | some r =>
            rw [hfv] at h
            have h2 : k = kv.1 ∨ k ∈ keys (rest.filterMap (fun kv =>
                if kv.1 ∈ bad_keys then Option.none
                else (f kv.2).map (fun r => (kv.1, r)))) := by
              simpa only [Option.map_some', keys, List.map_cons, List.mem_cons] using h
            rcases h2 with heq | hmem
            · exact heq ▸ hb
            · exact ih hmem

/-- Claim C8: the reserved name __builtins__ never appears among the keys
of the display mapping, the full mapping, the pickled payload namespace,
or the json_safe output, whatever the input namespace. -/
theorem C8_reserved_names (g : List (String × PyValue)) :
    "__builtins__" ∉ keys (v_dict g)
    ∧ "__builtins__" ∉ keys (real_vars g)
    ∧ "__builtins__" ∉ keys (p_dict g)
    ∧ ∀ l, json_safe g = some l → "__builtins__" ∉ keys l := by
  refine ⟨?_, ?_, ?_, ?_⟩
  · intro h
    exact mem_keys_reduce_not_reserved reduce_display g _ h (by simp [bad_keys])
  · intro h
    exact mem_keys_reduce_not_reserved reduce_full g _ h (by simp [bad_keys])
  · intro h
    obtain ⟨kv, hkv, hk⟩ := List.mem_map.mp h
    have hp := (List.mem_filter.mp hkv).2
    simp only [Bool.and_eq_true, Bool.not_eq_true', decide_eq_false_iff_not] at hp
    exact hp.2 (by simp [bad_keys, hk])
  · intro l hl h
    rw [json_safe_total] at hl
    obtain rfl : l = jsonCanon_entries (json_safe_filter g) := (Option.some.inj hl).symm
    rw [keys_jsonCanon_entries] at h
    obtain ⟨kv, hkv, hk⟩ := List.mem_map.mp h
    have hp := (List.mem_filter.mp hkv).2
    simp only [Bool.and_eq_true, Bool.not_eq_true', decide_eq_false_iff_not] at hp
    exact hp.1.2 (by simp [bad_keys, hk])

/-- Witness for C8 at a concrete namespace holding only the reserved
name. -/
theorem C8_witness :
    "__builtins__" ∉ keys (v_dict [("__builtins__", PyValue.int 1)])
    ∧ "__builtins__" ∉ keys ([] : List (String × PyValue)) :=
  ⟨(C8_reserved_names [("__builtins__", PyValue.int 1)]).1,
   (C8_reserved_names [("__builtins__", PyValue.int 1)]).2.2.2 [] rfl⟩

/-- Claim C9: on the isolated path a call leaves the caller namespace
untouched, and a successful result is a freshly built mapping whose keys
are exactly output, data, display_vars and real_vars - not a mutated
version of the caller namespace. -/
theorem C9_fresh_mapping (runner : JailRequest → SandboxResult)
    (code : String) (g : List (String × PyValue)) (files python_path : List String)
    (slug : Option String) (ef : List (String × String)) :
    (safe_exec runner code g files python_path slug ef).1 = g
    ∧ ∀ r, (safe_exec runner code g files python_path slug ef).2 = Except.ok r →
        ∃ o d dv rv,
          r = PyValue.dict
            [("output", PyValue.str o false), ("data", PyValue.str d false),
             ("display_vars", dv), ("real_vars", rv)]
          ∧ keys [("output", PyValue.str o false), ("data", PyValue.str d false),
                  ("display_vars", dv), ("real_vars", rv)]
              = ["output", "data", "display_vars", "real_vars"] := by
  refine ⟨rfl, ?_⟩
  intro r hr
  unfold safe_exec safe_exec_unpack at hr
  simp only at hr
  split at hr
  · cases hr
  · split at hr
    · split at hr
      · exact ⟨_, _, _, _, (Except.ok.inj hr).symm, rfl⟩
      · cases hr
    · cases hr

/-- Witness for C9 at a concrete runner behavior. -/
theorem C9_witness :
    ∃ o d dv rv,
      PyValue.dict
        [("output", PyValue.str "out" false), ("data", PyValue.str "pd" false),
         ("display_vars", PyValue.dict []), ("real_vars", PyValue.dict [])]
      = PyValue.dict
          [("output", PyValue.str o false), ("data", PyValue.str d false),
           ("display_vars", dv), ("real_vars", rv)]
      ∧ keys [("output", PyValue.str o false), ("data", PyValue.str d false),
              ("display_vars", dv), ("real_vars", rv)]
          = ["output", "data", "display_vars", "real_vars"] :=
  (C9_fresh_mapping
      (fun _ => ⟨0, "outPICKLE_DATA:\npdPICKLE_DATA:\n" ++ obrace ++ cbrace
        ++ "PICKLE_DATA:\n" ++ obrace ++ cbrace, ""⟩)
      "x = 1" [] [] [] Option.none []).2
    (PyValue.dict
      [("output", PyValue.str "out" false), ("data", PyValue.str "pd" false),
       ("display_vars", PyValue.dict []), ("real_vars", PyValue.dict [])])
    rfl

/-- Claim C10: on the debug path every successful execution returns the
Python None - not_safe_exec falls off its end with no return statement and
the UNSAFE safe_exec wrapper returns that value unchanged - never a
Reduced State Record, while an isolated-path success is always a dict, so
the success value of execute differs between the two strategies. -/
theorem C10_debug_returns_none :
    (∀ g ef pp sp, (∀ fc ∈ ef, write_ok fc.1 = true) →
        (safe_exec_override g ef pp sp Option.none).outcome
          = Except.ok PyValue.none)
    ∧ (∀ res r, safe_exec_unpack res = Except.ok r → ∃ l, r = PyValue.dict l)
    ∧ (∀ l, PyValue.dict l ≠ PyValue.none) := by
  refine ⟨?_, ?_, ?_⟩
  · intro g ef pp sp hw
    unfold safe_exec_override
    rw [not_safe_exec_outcome g ef pp sp Option.none hw]
  · intro res r hr
    unfold safe_exec_unpack at hr
    split at hr
    · cases hr
    · split at hr
      · split at hr
        · exact ⟨_, (Except.ok.inj hr).symm⟩
        · cases hr
      · cases hr
  · intro l h
    cases h

/-- Witness for C10 at a concrete debug-path call. -/
theorem C10_witness :
    (safe_exec_override [] [] [] ["p"] Option.none).outcome
      = Except.ok PyValue.none :=
  C10_debug_returns_none.1 [] [] [] ["p"] (by decide)
